import Mathlib

/-!
Shallow embedding of the remote-terminal server core
(`src/server/sessions/pty-handler.ts`, `src/server/sessions/manager.ts`,
`src/server/utils/rate-limiter.ts`, `src/server/websocket/handler.ts`,
`src/server/db/queries.ts`), with theorems checking the natural-language
specification against the code.

Conventions: JavaScript `Map`s are modelled as association lists,
JavaScript numbers carried by protocol payloads as `Int`, wall-clock
milliseconds as `Nat`, and side effects (PTY operations, database
statements) as an explicit trace of `Effect` values returned alongside the
updated state.
-/

namespace RemoteTerminal

/-- Association-list lookup, modelling `Map.get`. -/
def lookupA {α : Type} (k : String) : List (String × α) → Option α
  | [] => none
  | (k', v) :: rest => if k = k' then some v else lookupA k rest

/-- Association-list update-or-insert, modelling `Map.set`. -/
def insertA {α : Type} (k : String) (v : α) : List (String × α) → List (String × α)
  | [] => [(k, v)]
  | (k', v') :: rest => if k = k' then (k, v) :: rest else (k', v') :: insertA k v rest

/-- Association-list removal, modelling `Map.delete`. -/
def eraseA {α : Type} (k : String) : List (String × α) → List (String × α)
  | [] => []
  | (k', v') :: rest => if k = k' then rest else (k', v') :: eraseA k rest

/-! ## Scrollback buffer (`pty-handler.ts`, class `ScrollbackBuffer`) -/

/-- Split a character stream on `/\r?\n/` terminators, exactly as
`combined.split(/\r?\n/)` does: `\n` ends a line, `\r\n` ends a line, and a
`\r` not followed by `\n` is an ordinary character. Always returns at least
one (possibly empty) segment, like JavaScript `split`. -/
def splitCRLF : List Char → List (List Char)
  | [] => [[]]
  | '\r' :: '\n' :: rest => [] :: splitCRLF rest
  | '\n' :: rest => [] :: splitCRLF rest
  | c :: rest =>
    match splitCRLF rest with
    | [] => [[c]]
    | l :: ls => (c :: l) :: ls

/-- State of a `ScrollbackBuffer`: the stored complete lines, the capacity
`maxLines`, and the pending partial line. -/
structure ScrollbackBuffer where
  buffer : List String
  maxLines : Nat
  partialLine : String
  deriving Repr, DecidableEq

/-- A freshly-constructed buffer whose `maxLines` field is `n`. The TS
constructor computes this field as `maxLines || getConfig().persistence.scrollbackLines`;
`n` is the resulting value. -/
def ScrollbackBuffer.init (n : Nat) : ScrollbackBuffer :=
  { buffer := [], maxLines := n, partialLine := "" }

/-- One loop iteration of `ScrollbackBuffer.push`: append the line, then
`shift()` the oldest entry when the length exceeds `maxLines`. -/
def pushLine (maxLines : Nat) (buf : List String) (line : String) : List String :=
  let b := buf ++ [line]
  if b.length > maxLines then b.tail else b

/-- `ScrollbackBuffer.push(data)`: prepend the carried partial line, split on
CR?LF, keep the trailing unterminated segment as the new carry, and push the
complete lines through the bounded buffer. -/
def ScrollbackBuffer.push (b : ScrollbackBuffer) (data : String) : ScrollbackBuffer :=
  let combined := b.partialLine ++ data
  let lines := (splitCRLF combined.data).map (fun cs => String.mk cs)
  let newPartial := lines.getLast?.getD ""
  let complete := lines.dropLast
  { b with
    buffer := complete.foldl (pushLine b.maxLines) b.buffer
    partialLine := newPartial }

/-- `ScrollbackBuffer.getAll()`: stored lines plus the carry when non-empty. -/
def ScrollbackBuffer.getAll (b : ScrollbackBuffer) : List String :=
  if b.partialLine ≠ "" then b.buffer ++ [b.partialLine] else b.buffer

/-- Feeding a whole sequence of chunks to a buffer. -/
def ScrollbackBuffer.pushAll (b : ScrollbackBuffer) (datas : List String) : ScrollbackBuffer :=
  datas.foldl ScrollbackBuffer.push b

/-! ## Rate limiter (`src/server/utils/rate-limiter.ts`, class `RateLimiter`) -/

/-- Token-bucket state: per-client token counts, per-client last-refill
timestamps (milliseconds), and the constructor parameters. -/
structure RateLimiter where
  tokens : List (String × Nat)
  lastRefill : List (String × Nat)
  maxTokens : Nat
  refillRateMs : Nat
  deriving Repr, DecidableEq

/-- `new RateLimiter(maxTokens, refillRateMs)` with empty per-client maps. -/
def RateLimiter.init (maxTokens refillRateMs : Nat) : RateLimiter :=
  { tokens := [], lastRefill := [], maxTokens, refillRateMs }

/-- `RateLimiter.tryAcquire(clientId)` at wall time `now`: unknown clients
start with a full bucket; known clients are refilled by
`Math.floor(elapsed / refillRateMs)` tokens capped at `maxTokens`; then one
token is consumed when available. Returns the acquired flag and the updated
limiter. -/
def RateLimiter.tryAcquire (rl : RateLimiter) (clientId : String) (now : Nat) :
    Bool × RateLimiter :=
  let rl1 :=
    if (lookupA clientId rl.tokens).isNone then
      { rl with
        tokens := insertA clientId rl.maxTokens rl.tokens
        lastRefill := insertA clientId now rl.lastRefill }
    else
      let last := (lookupA clientId rl.lastRefill).getD now
      let elapsed := now - last
      let tokensToAdd := elapsed / rl.refillRateMs
      if tokensToAdd > 0 then
        let currentTokens := (lookupA clientId rl.tokens).getD 0
        { rl with
          tokens := insertA clientId (min rl.maxTokens (currentTokens + tokensToAdd)) rl.tokens
          lastRefill := insertA clientId now rl.lastRefill }
      else rl
  let currentTokens := (lookupA clientId rl1.tokens).getD 0
  if currentTokens > 0 then
    (true, { rl1 with tokens := insertA clientId (currentTokens - 1) rl1.tokens })
  else
    (false, rl1)

/-- `RateLimiter.removeClient(clientId)`. -/
def RateLimiter.removeClient (rl : RateLimiter) (clientId : String) : RateLimiter :=
  { rl with
    tokens := eraseA clientId rl.tokens
    lastRefill := eraseA clientId rl.lastRefill }

/-! ## Protocol frames (`src/server/websocket/protocol.ts`) -/

/-- The payload shapes the verified handlers actually emit
(`createMessage(type, payload, id)` serializes these to JSON). -/
inductive Payload where
  | empty
  | errMsg (message : String)
  | sessionInfo (id name : String)
  | attached (id : String) (scrollback : String)
  | sessionId (id : String)
  deriving Repr, DecidableEq

/-- A server→client frame: `type`, optional correlation `id`, payload. -/
structure Frame where
  type : String
  id : Option String
  payload : Payload
  deriving Repr, DecidableEq

/-- The rate-limit gate installed in `handleConnection`'s message listener:
a frame arriving from `clientId` at time `now` is either passed through
(`true`) or answered with a single `error` frame `Rate limit exceeded`. -/
def rateLimitGate (rl : RateLimiter) (clientId : String) (now : Nat) :
    Bool × RateLimiter × List Frame :=
  let r := rl.tryAcquire clientId now
  if r.1 then (true, r.2, [])
  else (false, r.2, [{ type := "error", id := none, payload := .errMsg "Rate limit exceeded" }])

/-! ## Session manager (`src/server/sessions/manager.ts`, `db/queries.ts`) -/

/-- The fields of an `ActiveSession` the verified claims depend on. -/
structure Session where
  id : String
  name : String
  shell : String
  cwd : String
  status : String
  cols : Int
  rows : Int
  tmuxSession : Option String
  deriving Repr, DecidableEq

/-- A durable `sessions` table row (only the columns the claims read). -/
structure SessionRow where
  id : String
  status : String
  deriving Repr, DecidableEq

/-- Observable side effects of the manager: PTY operations, external
multiplexer (tmux) operations, and database statements. -/
inductive Effect where
  | spawnPty (id : String)
  | createTmux (name : String)
  | killPty (id : String)
  | killTmux (name : String)
  | resizePty (id : String) (cols rows : Int)
  | writePty (id : String) (data : String)
  | dbInsert (id : String)
  | dbUpdateStatus (id : String) (status : String)
  | dbUpdateDims (id : String) (cols rows : Int)
  | dbDelete (id : String)
  | logEvent (id : String) (event : String)
  | persistScrollbackEff (id : String) (content : String)
  deriving Repr, DecidableEq

/-- Whether an effect is a write of a scrollback blob to the store. -/
def Effect.isPersist : Effect → Bool
  | .persistScrollbackEff _ _ => true
  | _ => false

/-- The `SessionManager`'s in-memory maps plus the durable store it talks
to. Listener sets are lists of `(token, owning client id)` pairs — each
`onData`/`onExit` subscription is a distinct closure, modelled by a fresh
token drawn from `nextToken`. -/
structure ManagerState where
  activeSessions : List (String × Session)
  dataListeners : List (String × List (Nat × String))
  exitListeners : List (String × List (Nat × String))
  scrollbackBuffers : List (String × ScrollbackBuffer)
  connectedClients : List (String × List String)
  db : List SessionRow
  dbScrollback : List (String × String)
  nextToken : Nat
  deriving Repr, DecidableEq

/-- A manager with no sessions and an empty store. -/
def ManagerState.empty : ManagerState :=
  { activeSessions := [], dataListeners := [], exitListeners := []
    scrollbackBuffers := [], connectedClients := [], db := []
    dbScrollback := [], nextToken := 0 }

/-- `countActiveSessions()`:
`SELECT COUNT(*) FROM sessions WHERE status != 'terminated'`. -/
def countActiveSessions (db : List SessionRow) : Nat :=
  (db.filter (fun r => r.status ≠ "terminated")).length

/-- Configuration keys used by the manager. -/
structure Config where
  maxSessions : Nat
  scrollbackLines : Nat
  deriving Repr, DecidableEq

/-- `createSession` options (already validated by the caller). -/
structure CreateOpts where
  name : Option String := none
  shell : Option String := none
  cwd : Option String := none
  cols : Option Int := none
  rows : Option Int := none
  deriving Repr, DecidableEq

/-- Environment of one `createSession` call: the generated UUID, the host
platform, whether the external multiplexer is available and whether its
session creation succeeds, and whether the durable insert throws
(`some errorMessage`) or succeeds (`none`). -/
structure CreateEnv where
  newId : String
  isWin : Bool
  tmuxAvailable : Bool
  tmuxCreateOk : Bool
  insertErr : Option String
  deriving Repr, DecidableEq

/-- JavaScript `x || d` on an optional number (`0` is falsy). -/
def orDefaultInt (o : Option Int) (d : Int) : Int :=
  match o with
  | some v => if v = 0 then d else v
  | none => d

/-- JavaScript `x || d` on an optional string (`""` is falsy). -/
def orDefaultStr (o : Option String) (d : String) : String :=
  match o with
  | some v => if v = "" then d else v
  | none => d

/-- The tmux session name `claude-remote-${id.slice(0, 8)}`. -/
def tmuxName (id : String) : String := "claude-remote-" ++ id.take 8

/-- `SessionManager.createSession(options)`. Returns the thrown-or-returned
result, the manager state after the call, and the effect trace, in program
order: quota check, PTY spawn, optional tmux creation, scrollback-buffer
registration, durable insert; on insert failure the PTY and tmux handle are
killed and the buffer discarded before rethrowing; the session is added to
`activeSessions` only after a successful insert. -/
def createSession (cfg : Config) (env : CreateEnv) (opts : CreateOpts)
    (st : ManagerState) : Except String Session × ManagerState × List Effect :=
  let activeCount := countActiveSessions st.db
  if activeCount ≥ cfg.maxSessions then
    (.error ("Maximum session limit (" ++ toString cfg.maxSessions ++ ") reached"), st, [])
  else
    let id := env.newId
    let name := orDefaultStr opts.name ("Session " ++ toString (activeCount + 1))
    let shell := orDefaultStr opts.shell "/bin/bash"
    let cwd := orDefaultStr opts.cwd "/"
    let cols := orDefaultInt opts.cols 80
    let rows := orDefaultInt opts.rows 24
    let spawnEffs := [Effect.spawnPty id]
    let tmuxTried := ¬ env.isWin ∧ env.tmuxAvailable
    let tmuxEffs := if tmuxTried then [Effect.createTmux (tmuxName id)] else []
    let tmuxSession : Option String :=
      if tmuxTried ∧ env.tmuxCreateOk then some (tmuxName id) else none
    let session : Session :=
      { id, name, shell, cwd, status := "active", cols, rows, tmuxSession }
    let st1 := { st with
      scrollbackBuffers :=
        insertA id (ScrollbackBuffer.init cfg.scrollbackLines) st.scrollbackBuffers }
    match env.insertErr with
    | none =>
      let st2 := { st1 with
        db := st1.db ++ [{ id, status := "active" }]
        activeSessions := insertA id session st1.activeSessions }
      (.ok session, st2,
        spawnEffs ++ tmuxEffs ++ [Effect.dbInsert id, Effect.logEvent id "created"])
    | some e =>
      let st2 := { st1 with scrollbackBuffers := eraseA id st1.scrollbackBuffers }
      (.error e, st2,
        spawnEffs ++ tmuxEffs ++ [Effect.dbInsert id, Effect.killPty id] ++
          (match tmuxSession with
           | some t => [Effect.killTmux t]
           | none => []))

/-- `SessionManager.terminateSession(id)` on a host where `isWindows()`
returns `isWin`: returns `false` for an unknown id; otherwise persists the
scrollback blob when on Windows and non-empty, kills the tmux handle if
present, kills the PTY, drops listeners/buffers, marks the durable row
terminated and removes the session from the in-memory table. -/
def terminateSession (isWin : Bool) (st : ManagerState) (id : String) :
    Bool × ManagerState × List Effect :=
  match lookupA id st.activeSessions with
  | none => (false, st, [])
  | some session =>
    let scrollback := ((lookupA id st.scrollbackBuffers).map ScrollbackBuffer.getAll).getD []
    let blob := String.intercalate "\n" scrollback
    let doPersist := isWin ∧ scrollback.length > 0
    let persistEffs := if doPersist then [Effect.persistScrollbackEff id blob] else []
    let dbScrollback1 := if doPersist then insertA id blob st.dbScrollback else st.dbScrollback
    let tmuxEffs :=
      match session.tmuxSession with
      | some t => [Effect.killTmux t]
      | none => []
    let st' := { st with
      dataListeners := eraseA id st.dataListeners
      exitListeners := eraseA id st.exitListeners
      scrollbackBuffers := eraseA id st.scrollbackBuffers
      dbScrollback := dbScrollback1
      db := st.db.map (fun r => if r.id = id then { r with status := "terminated" } else r)
      activeSessions := eraseA id st.activeSessions }
    (true, st',
      persistEffs ++ tmuxEffs ++ [Effect.killPty id,
        Effect.dbUpdateStatus id "terminated", Effect.logEvent id "terminated"])

/-- Modelled from the spec: the database schema module is not under `src/`;
the spec's schema declares `session_logs(id PK, session_id FK cascade, ...)`
and the manager's comments rely on the enforced constraint (`Log before
deleting (foreign key constraint)`, `cascades to logs`). An insert into
`session_logs` therefore succeeds exactly when the referenced session row
exists: this predicate says whether `logSessionEvent(id, ...)` succeeds
against the `sessions` table `db`. (At the other call sites the row
provably exists, so the check only matters for `deleteSession`.) -/
def logInsertOk (db : List SessionRow) (id : String) : Bool :=
  db.any (fun r => r.id = id)

/-- `SessionManager.deleteSession(id)`: terminate if live, append the
`deleted` event-log entry, delete the durable rows (cascading to scrollback
and logs), and return `true`. The event-log append is subject to the
`session_logs` foreign key (see `logInsertOk`): for an id with no durable
session row it throws, the deletion never runs, and the error propagates to
the caller. -/
def deleteSession (isWin : Bool) (st : ManagerState) (id : String) :
    Except String Bool × ManagerState × List Effect :=
  let p : ManagerState × List Effect :=
    if (lookupA id st.activeSessions).isSome then
      let r := terminateSession isWin st id
      (r.2.1, r.2.2)
    else (st, [])
  if logInsertOk p.1.db id then
    let st2 := { p.1 with
      db := p.1.db.filter (fun r => r.id ≠ id)
      dbScrollback := eraseA id p.1.dbScrollback }
    (.ok true, st2, p.2 ++ [Effect.logEvent id "deleted", Effect.dbDelete id])
  else
    (.error "FOREIGN KEY constraint failed", p.1, p.2)

/-- `SessionManager.resizeSession(id, cols, rows)`. -/
def resizeSession (st : ManagerState) (id : String) (cols rows : Int) :
    Bool × ManagerState × List Effect :=
  match lookupA id st.activeSessions with
  | none => (false, st, [])
  | some session =>
    let session' := { session with cols, rows }
    (true,
     { st with activeSessions := insertA id session' st.activeSessions },
     [Effect.resizePty id cols rows, Effect.dbUpdateDims id cols rows])

/-- `SessionManager.getScrollback(id)`: the live ring's contents, else the
stored blob split on LF, else `[]`. -/
def getScrollback (st : ManagerState) (id : String) : List String :=
  match lookupA id st.scrollbackBuffers with
  | some buf => buf.getAll
  | none =>
    match lookupA id st.dbScrollback with
    | some content => if content = "" then [] else content.splitOn "\n"
    | none => []

/-! ## Connection handler (`src/server/websocket/handler.ts`) -/

/-- Per-connection state: the attached session and the two unsubscribe
tokens held by the connection. -/
structure ConnState where
  attachedSession : Option String
  dataUnsub : Option Nat
  exitUnsub : Option Nat
  deriving Repr, DecidableEq

/-- A connection that has just authenticated. -/
def ConnState.fresh : ConnState :=
  { attachedSession := none, dataUnsub := none, exitUnsub := none }

/-- `SessionManager.onData(id, listener)`: add a fresh listener (token owned
by `connId`) to the session's set and return the token. -/
def onData (connId : String) (sid : String) (st : ManagerState) : Nat × ManagerState :=
  let t := st.nextToken
  let cur := (lookupA sid st.dataListeners).getD []
  (t, { st with
    dataListeners := insertA sid (cur ++ [(t, connId)]) st.dataListeners
    nextToken := st.nextToken + 1 })

/-- `SessionManager.onExit(id, listener)`. -/
def onExit (connId : String) (sid : String) (st : ManagerState) : Nat × ManagerState :=
  let t := st.nextToken
  let cur := (lookupA sid st.exitListeners).getD []
  (t, { st with
    exitListeners := insertA sid (cur ++ [(t, connId)]) st.exitListeners
    nextToken := st.nextToken + 1 })

/-- `SessionManager.addClient(id, clientId)` (the client-set bookkeeping). -/
def addClient (st : ManagerState) (sid clientId : String) : ManagerState :=
  match lookupA sid st.activeSessions with
  | none => st
  | some _ =>
    let cur := (lookupA sid st.connectedClients).getD []
    let cur' := if clientId ∈ cur then cur else cur ++ [clientId]
    { st with connectedClients := insertA sid cur' st.connectedClients }

/-- `SessionManager.removeClient(id, clientId)`. -/
def removeClient (st : ManagerState) (sid clientId : String) : ManagerState :=
  match lookupA sid st.activeSessions with
  | none => st
  | some _ =>
    let cur := (lookupA sid st.connectedClients).getD []
    { st with connectedClients := insertA sid (cur.filter (fun c => c ≠ clientId)) st.connectedClients }

/-- `attachToSession(connection, sessionId)`: record the attachment, add the
client, and subscribe a fresh data listener and a fresh exit listener,
storing both unsubscribe tokens on the connection. Emits no frame. -/
def attachToSession (connId : String) (conn : ConnState) (sid : String)
    (st : ManagerState) : ConnState × ManagerState :=
  let st1 := addClient st sid connId
  let r1 := onData connId sid st1
  let r2 := onExit connId sid r1.2
  ({ attachedSession := some sid, dataUnsub := some r1.1, exitUnsub := some r2.1 }, r2.2)

/-- Cancel one listener token on one session's listener list. -/
def unsubscribe (listeners : List (String × List (Nat × String)))
    (sid : String) (t : Nat) : List (String × List (Nat × String)) :=
  match lookupA sid listeners with
  | none => listeners
  | some l => insertA sid (l.filter (fun p => p.1 ≠ t)) listeners

/-- `detachFromSession(connection)`: run both unsubscribe tokens, remove the
client from the session's set and clear the connection's attachment. -/
def detachFromSession (connId : String) (conn : ConnState) (st : ManagerState) :
    ConnState × ManagerState :=
  match conn.attachedSession with
  | none => (conn, st)
  | some sid =>
    let dl := match conn.dataUnsub with
      | some t => unsubscribe st.dataListeners sid t
      | none => st.dataListeners
    let el := match conn.exitUnsub with
      | some t => unsubscribe st.exitListeners sid t
      | none => st.exitListeners
    let st1 := removeClient { st with dataListeners := dl, exitListeners := el } sid connId
    (ConnState.fresh, st1)

/-- Raw `session.create` payload as received (all fields optional). -/
structure SessionCreatePayload where
  name : Option String := none
  shell : Option String := none
  cwd : Option String := none
  cols : Option Int := none
  rows : Option Int := none
  deriving Repr, DecidableEq

/-- Characters accepted by `VALID_SHELL_PATTERN = /^[a-zA-Z0-9/_.-]+$/`. -/
def isShellChar (c : Char) : Bool :=
  ('a' ≤ c ∧ c ≤ 'z') ∨ ('A' ≤ c ∧ c ≤ 'Z') ∨ ('0' ≤ c ∧ c ≤ '9') ∨
    c = '/' ∨ c = '_' ∨ c = '.' ∨ c = '-'

/-- Whether a character list contains the substring `..`. -/
def hasDotDot : List Char → Bool
  | [] => false
  | '.' :: '.' :: _ => true
  | _ :: rest => hasDotDot rest

/-- `validateSessionOptions(payload)`: truthiness-guarded checks for name
(truncate to 100 and trim), shell (character whitelist), cwd (length ≤ 500,
no `..`) and cols/rows (presence-guarded, range [1, 500]). Throws (returns
`.error`) on the first violation. -/
def validateSessionOptions (payload : Option SessionCreatePayload) :
    Except String CreateOpts := do
  let p := payload.getD {}
  let mut v : CreateOpts := {}
  if let some n := p.name then
    if n ≠ "" then
      v := { v with name := some ((n.take 100).trim) }
  if let some s := p.shell then
    if s ≠ "" then
      if s.data.all isShellChar ∧ s ≠ "" then
        v := { v with shell := some s }
      else
        throw "Invalid shell path"
  if let some c := p.cwd then
    if c ≠ "" then
      if c.length > 500 then
        throw "Working directory path too long"
      if hasDotDot c.data then
        throw "Invalid working directory path"
      v := { v with cwd := some c }
  if let some c := p.cols then
    if c < 1 ∨ c > 500 then
      throw "Invalid terminal columns"
    v := { v with cols := some c }
  if let some r := p.rows then
    if r < 1 ∨ r > 500 then
      throw "Invalid terminal rows"
    v := { v with rows := some r }
  return v

/-- Result of one handler invocation: updated connection, updated manager,
frames sent to the requesting client (in order) and effect trace. -/
structure HandlerResult where
  conn : ConnState
  mgr : ManagerState
  frames : List Frame
  effects : List Effect
  deriving Repr, DecidableEq

/-- `handleSessionCreate(connection, message)`: validate, call
`createSession`, reply `session.created` with the request's correlation id,
then detach from any current session and auto-attach to the new one; on any
thrown error reply with a single `session.error` frame carrying the
correlation id. -/
def handleSessionCreate (cfg : Config) (env : CreateEnv) (connId : String)
    (msgId : Option String) (payload : Option SessionCreatePayload)
    (conn : ConnState) (st : ManagerState) : HandlerResult :=
  match validateSessionOptions payload with
  | .error e =>
    { conn, mgr := st, frames := [{ type := "session.error", id := msgId, payload := .errMsg e }]
      effects := [] }
  | .ok opts =>
    match createSession cfg env opts st with
    | (.error e, st', effs) =>
      { conn, mgr := st'
        frames := [{ type := "session.error", id := msgId, payload := .errMsg e }]
        effects := effs }
    | (.ok session, st', effs) =>
      let createdFrame : Frame :=
        { type := "session.created", id := msgId, payload := .sessionInfo session.id session.name }
      let dr :=
        if conn.attachedSession.isSome then detachFromSession connId conn st' else (conn, st')
      let ar := attachToSession connId dr.1 session.id dr.2
      { conn := ar.1, mgr := ar.2, frames := [createdFrame], effects := effs }

/-- `handleSessionAttach(connection, message)`: require a truthy session id,
require a live session, detach from any current session, attach, and reply
`session.attached` with the scrollback joined on LF. -/
def handleSessionAttach (connId : String) (msgId : Option String)
    (sessionId : Option String) (conn : ConnState) (st : ManagerState) : HandlerResult :=
  match sessionId with
  | none =>
    { conn, mgr := st
      frames := [{ type := "session.error", id := msgId, payload := .errMsg "Session ID required" }]
      effects := [] }
  | some sid =>
    if sid = "" then
      { conn, mgr := st
        frames := [{ type := "session.error", id := msgId, payload := .errMsg "Session ID required" }]
        effects := [] }
    else
      match lookupA sid st.activeSessions with
      | none =>
        { conn, mgr := st
          frames := [{ type := "session.error", id := msgId, payload := .errMsg "Session not found" }]
          effects := [] }
      | some _ =>
        let dr :=
          if conn.attachedSession.isSome then detachFromSession connId conn st else (conn, st)
        let ar := attachToSession connId dr.1 sid dr.2
        let scrollback := getScrollback ar.2 sid
        { conn := ar.1, mgr := ar.2
          frames := [{ type := "session.attached", id := msgId
                       payload := .attached sid (String.intercalate "\n" scrollback) }]
          effects := [] }

/-- Raw `terminal.resize` payload (all fields may be absent). -/
structure TerminalResizePayload where
  sessionId : Option String := none
  cols : Option Int := none
  rows : Option Int := none
  deriving Repr, DecidableEq

/-- JavaScript truthiness of an optional string field. -/
def truthyStr (o : Option String) : Bool :=
  match o with
  | some s => s ≠ ""
  | none => false

/-- JavaScript truthiness of an optional numeric field. -/
def truthyInt (o : Option Int) : Bool :=
  match o with
  | some v => v ≠ 0
  | none => false

/-- `handleTerminalResize(connection, message)`: silently return when any
field is falsy, when a dimension is outside [1, 500], or when the
connection is not attached to the target session; otherwise resize. -/
def handleTerminalResize (connId : String) (msgId : Option String)
    (payload : Option TerminalResizePayload) (conn : ConnState) (st : ManagerState) :
    HandlerResult :=
  let p := payload.getD {}
  if ¬ (truthyStr p.sessionId ∧ truthyInt p.cols ∧ truthyInt p.rows) then
    { conn, mgr := st, frames := [], effects := [] }
  else
    let sid := p.sessionId.getD ""
    let cols := p.cols.getD 0
    let rows := p.rows.getD 0
    if cols < 1 ∨ cols > 500 ∨ rows < 1 ∨ rows > 500 then
      { conn, mgr := st, frames := [], effects := [] }
    else if conn.attachedSession ≠ some sid then
      { conn, mgr := st, frames := [], effects := [] }
    else
      let (_, st', effs) := resizeSession st sid cols rows
      { conn, mgr := st', frames := [], effects := effs }

/-- `handleSessionDelete(connection, message)`: require a truthy session id,
call `deleteSession`, reply `session.deleted` with the correlation id and
broadcast the same event (the broadcast copy carries no id). The handler has
no try/catch, so when `deleteSession` throws the rejection propagates out of
the message listener and no reply frame is sent at all. -/
def handleSessionDelete (isWin : Bool) (connId : String) (msgId : Option String)
    (sessionId : Option String) (conn : ConnState) (st : ManagerState) : HandlerResult :=
  match sessionId with
  | none =>
    { conn, mgr := st
      frames := [{ type := "session.error", id := msgId, payload := .errMsg "Session ID required" }]
      effects := [] }
  | some sid =>
    if sid = "" then
      { conn, mgr := st
        frames := [{ type := "session.error", id := msgId, payload := .errMsg "Session ID required" }]
        effects := [] }
    else
      let r := deleteSession isWin st sid
      match r.1 with
      | .error _ =>
        { conn, mgr := r.2.1, frames := [], effects := r.2.2 }
      | .ok success =>
        if success then
          { conn, mgr := r.2.1
            frames := [{ type := "session.deleted", id := msgId, payload := .sessionId sid },
                       { type := "session.deleted", id := none, payload := .sessionId sid }]
            effects := r.2.2 }
        else
          { conn, mgr := r.2.1
            frames := [{ type := "session.error", id := msgId
                         payload := .errMsg "Failed to delete session" }]
            effects := r.2.2 }

/-! ## Shared lemmas -/

theorem pushLine_length_le {m : Nat} {buf : List String} (line : String)
    (h : buf.length ≤ m) : (pushLine m buf line).length ≤ m := by
  unfold pushLine
  by_cases hlen : (buf ++ [line]).length > m
  · rw [if_pos hlen]
    simp only [List.length_tail, List.length_append, List.length_singleton] at hlen ⊢
    omega
  · rw [if_neg hlen]
    simp only [List.length_append, List.length_singleton] at hlen ⊢
    omega

theorem foldl_pushLine_length_le {m : Nat} (lines : List String) (buf : List String)
    (h : buf.length ≤ m) : (lines.foldl (pushLine m) buf).length ≤ m := by
  induction lines generalizing buf with
  | nil => simpa using h
  | cons l ls ih =>
    simp only [List.foldl_cons]
    exact ih _ (pushLine_length_le l h)

theorem push_buffer_length_le {b : ScrollbackBuffer} (data : String)
    (h : b.buffer.length ≤ b.maxLines) :
    (b.push data).buffer.length ≤ (b.push data).maxLines := by
  unfold ScrollbackBuffer.push
  exact foldl_pushLine_length_le _ _ h

theorem pushAll_buffer_length_le {b : ScrollbackBuffer} (datas : List String)
    (h : b.buffer.length ≤ b.maxLines) :
    (b.pushAll datas).buffer.length ≤ (b.pushAll datas).maxLines := by
  induction datas generalizing b with
  | nil => simpa [ScrollbackBuffer.pushAll] using h
  | cons d ds ih =>
    simp only [ScrollbackBuffer.pushAll, List.foldl_cons]
    exact ih (push_buffer_length_le d h)

theorem lookupA_insertA_self {α : Type} (k : String) (v : α) (l : List (String × α)) :
    lookupA k (insertA k v l) = some v := by
  induction l with
  | nil => simp [insertA, lookupA]
  | cons p rest ih =>
    obtain ⟨k', v'⟩ := p
    by_cases h : k = k'
    · simp [insertA, lookupA, h]
    · simp [insertA, lookupA, h, ih]

theorem lookupA_insertA_ne {α : Type} {k k' : String} (v : α) (l : List (String × α))
    (h : k ≠ k') : lookupA k (insertA k' v l) = lookupA k l := by
  induction l with
  | nil => simp [insertA, lookupA, h]
  | cons p rest ih =>
    obtain ⟨k'', v''⟩ := p
    by_cases h2 : k' = k''
    · subst h2
      simp [insertA, lookupA, h]
    · by_cases h3 : k = k''
      · simp [insertA, lookupA, h2, h3]
      · simp [insertA, lookupA, h2, h3, ih]

theorem eraseA_insertA_fresh {α : Type} {k : String} (v : α) {l : List (String × α)}
    (h : lookupA k l = none) : eraseA k (insertA k v l) = l := by
  induction l with
  | nil => simp [insertA, eraseA]
  | cons p rest ih =>
    obtain ⟨k', v'⟩ := p
    by_cases h2 : k = k'
    · simp [lookupA, h2] at h
    · simp [lookupA, h2] at h
      simp [insertA, eraseA, h2, Ne.symm h2, ih h]

theorem not_mem_map_fst_filter_ne (l : List (Nat × String)) (t : Nat) :
    t ∉ (l.filter (fun p => p.1 ≠ t)).map Prod.fst := by
  intro hmem
  obtain ⟨p, hp, hfst⟩ := List.mem_map.mp hmem
  have := List.of_mem_filter hp
  simp at this
  exact this hfst

theorem push_maxLines (b : ScrollbackBuffer) (d : String) :
    (b.push d).maxLines = b.maxLines := rfl

theorem pushAll_maxLines (b : ScrollbackBuffer) (ds : List String) :
    (b.pushAll ds).maxLines = b.maxLines := by
  induction ds generalizing b with
  | nil => rfl
  | cons d ds ih =>
    simp only [ScrollbackBuffer.pushAll, List.foldl_cons] at ih ⊢
    exact ih (b.push d)

/-! ## Theorems for the claims -/

/-- C3: for every capacity `N` and every sequence of `push` operations on a
`ScrollbackBuffer` constructed with capacity `N`, `getAll()` returns at most
`N + 1` strings — the extra one being the non-empty partial-line carry. -/
theorem scrollback_getAll_le_capacity_succ (N : Nat) (datas : List String) :
    (((ScrollbackBuffer.init N).pushAll datas).getAll).length ≤ N + 1 := by
  have hmax := pushAll_maxLines (ScrollbackBuffer.init N) datas
  have hbuf := pushAll_buffer_length_le (b := ScrollbackBuffer.init N) datas
    (by simp [ScrollbackBuffer.init])
  rw [hmax] at hbuf
  have hN : (ScrollbackBuffer.init N).maxLines = N := rfl
  rw [hN] at hbuf
  unfold ScrollbackBuffer.getAll
  by_cases h : ((ScrollbackBuffer.init N).pushAll datas).partialLine ≠ ""
  · rw [if_pos h]
    simp only [List.length_append, List.length_singleton]
    omega
  · rw [if_neg h]
    omega

/-- C4: a `ScrollbackBuffer` with capacity 3 fed the single input
`"a\nb\nc\nd\ne\n"` yields exactly `["c", "d", "e"]` from `getAll()`, with
the oldest complete lines overwritten and no partial-line carry left. -/
theorem scrollback_cap3_example :
    ((ScrollbackBuffer.init 3).push "a\nb\nc\nd\ne\n").getAll = ["c", "d", "e"] ∧
      ((ScrollbackBuffer.init 3).push "a\nb\nc\nd\ne\n").partialLine = "" := by
  constructor <;> rfl

/-- C1: when the durable insert in `createSession` fails, the PTY is killed,
the tmux handle (when one was created) is torn down, the scrollback ring is
discarded, the error is rethrown, and the session is not added to the
in-memory table; the table gains the session exactly when the insert
succeeds. -/
theorem createSession_insert_failure_rollback
    (cfg : Config) (env : CreateEnv) (opts : CreateOpts) (st : ManagerState) (e : String)
    (hquota : countActiveSessions st.db < cfg.maxSessions)
    (hfreshA : lookupA env.newId st.activeSessions = none)
    (hfreshB : lookupA env.newId st.scrollbackBuffers = none)
    (herr : env.insertErr = some e) :
    (createSession cfg env opts st).1 = .error e ∧
    Effect.killPty env.newId ∈ (createSession cfg env opts st).2.2 ∧
    ((¬ env.isWin ∧ env.tmuxAvailable ∧ env.tmuxCreateOk) →
      Effect.killTmux (tmuxName env.newId) ∈ (createSession cfg env opts st).2.2) ∧
    (createSession cfg env opts st).2.1.activeSessions = st.activeSessions ∧
    lookupA env.newId (createSession cfg env opts st).2.1.activeSessions = none ∧
    (createSession cfg env opts st).2.1.scrollbackBuffers = st.scrollbackBuffers ∧
    (lookupA env.newId
        (createSession cfg { env with insertErr := none } opts st).2.1.activeSessions).isSome
      = true := by
  have hq : ¬ countActiveSessions st.db ≥ cfg.maxSessions := by omega
  obtain ⟨nid, iw, ta, tok, ierr⟩ := env
  simp only [CreateEnv.mk.injEq] at herr ⊢
  subst herr
  refine ⟨?_, ?_, ?_, ?_, ?_, ?_, ?_⟩
  · unfold createSession
    rw [if_neg hq]
  · unfold createSession
    rw [if_neg hq]
    simp
  · intro htmux
    obtain ⟨h1, h2, h3⟩ := htmux
    unfold createSession
    rw [if_neg hq]
    simp [h1, h2, h3]
  · unfold createSession
    rw [if_neg hq]
  · unfold createSession
    rw [if_neg hq]
    exact hfreshA
  · unfold createSession
    rw [if_neg hq]
    exact eraseA_insertA_fresh _ hfreshB
  · unfold createSession
    rw [if_neg hq]
    simp [lookupA_insertA_self]

theorem createSession_insert_failure_rollback_witness :
    countActiveSessions ManagerState.empty.db <
        (Config.mk 10 100).maxSessions ∧
      lookupA "u2" ManagerState.empty.activeSessions = none ∧
      lookupA "u2" ManagerState.empty.scrollbackBuffers = none ∧
      (CreateEnv.mk "u2" false true true (some "disk full")).insertErr = some "disk full" ∧
      (createSession (Config.mk 10 100) (CreateEnv.mk "u2" false true true (some "disk full"))
          {} ManagerState.empty).1 = .error "disk full" ∧
      Effect.killPty "u2" ∈ (createSession (Config.mk 10 100)
          (CreateEnv.mk "u2" false true true (some "disk full")) {} ManagerState.empty).2.2 :=
  ⟨by decide, by decide, by decide, rfl,
    (createSession_insert_failure_rollback (Config.mk 10 100)
        (CreateEnv.mk "u2" false true true (some "disk full")) {} ManagerState.empty "disk full"
        (by decide) (by decide) (by decide) rfl).1,
    (createSession_insert_failure_rollback (Config.mk 10 100)
        (CreateEnv.mk "u2" false true true (some "disk full")) {} ManagerState.empty "disk full"
        (by decide) (by decide) (by decide) rfl).2.1⟩

/-- C2: when the durable count of non-terminated sessions is at least the
configured `maxSessions`, `createSession` fails with
`Maximum session limit (N) reached` before producing any effect, and the
`session.create` handler answers with a single `session.error` frame
carrying the request's correlation id. -/
theorem createSession_quota_exceeded
    (cfg : Config) (env : CreateEnv) (opts : CreateOpts) (st : ManagerState)
    (hquota : countActiveSessions st.db ≥ cfg.maxSessions) :
    createSession cfg env opts st =
      (.error ("Maximum session limit (" ++ toString cfg.maxSessions ++ ") reached"), st, []) ∧
    ∀ connId msgId conn,
      handleSessionCreate cfg env connId msgId none conn st =
        { conn := conn, mgr := st
          frames := [{ type := "session.error", id := msgId
                       payload := .errMsg ("Maximum session limit (" ++
                         toString cfg.maxSessions ++ ") reached") }]
          effects := [] } := by
  have h1 : ∀ o : CreateOpts, createSession cfg env o st =
      (.error ("Maximum session limit (" ++ toString cfg.maxSessions ++ ") reached"), st, []) := by
    intro o
    unfold createSession
    rw [if_pos hquota]
  refine ⟨h1 opts, fun connId msgId conn => ?_⟩
  have hval : validateSessionOptions none = .ok {} := rfl
  unfold handleSessionCreate
  rw [hval]
  simp only [h1]

theorem createSession_quota_exceeded_witness :
    countActiveSessions
        ({ ManagerState.empty with db := [SessionRow.mk "a" "active"] } : ManagerState).db ≥
      (Config.mk 1 100).maxSessions ∧
    handleSessionCreate (Config.mk 1 100) (CreateEnv.mk "u1" true false false none)
        "conn1" (some "2") none ConnState.fresh
        { ManagerState.empty with db := [SessionRow.mk "a" "active"] } =
      { conn := ConnState.fresh
        mgr := { ManagerState.empty with db := [SessionRow.mk "a" "active"] }
        frames := [{ type := "session.error", id := some "2"
                     payload := .errMsg "Maximum session limit (1) reached" }]
        effects := [] } :=
  ⟨by decide,
    (createSession_quota_exceeded (Config.mk 1 100) (CreateEnv.mk "u1" true false false none)
        {} { ManagerState.empty with db := [SessionRow.mk "a" "active"] }
        (by decide)).2 "conn1" (some "2") ConnState.fresh⟩

theorem attachToSession_spec (connId : String) (conn : ConnState) (sid : String)
    (st : ManagerState) :
    (attachToSession connId conn sid st).1 =
      { attachedSession := some sid, dataUnsub := some st.nextToken
        exitUnsub := some (st.nextToken + 1) } ∧
    lookupA sid (attachToSession connId conn sid st).2.dataListeners =
      some (((lookupA sid st.dataListeners).getD []) ++ [(st.nextToken, connId)]) ∧
    lookupA sid (attachToSession connId conn sid st).2.exitListeners =
      some (((lookupA sid st.exitListeners).getD []) ++ [(st.nextToken + 1, connId)]) ∧
    (∀ s, s ≠ sid →
      lookupA s (attachToSession connId conn sid st).2.dataListeners =
        lookupA s st.dataListeners ∧
      lookupA s (attachToSession connId conn sid st).2.exitListeners =
        lookupA s st.exitListeners) ∧
    (attachToSession connId conn sid st).2.activeSessions = st.activeSessions ∧
    (attachToSession connId conn sid st).2.scrollbackBuffers = st.scrollbackBuffers ∧
    (attachToSession connId conn sid st).2.dbScrollback = st.dbScrollback ∧
    (attachToSession connId conn sid st).2.nextToken = st.nextToken + 2 := by
  unfold attachToSession onData onExit addClient
  cases hm : lookupA sid st.activeSessions with
  | none =>
    refine ⟨rfl, ?_, ?_, ?_, rfl, rfl, rfl, rfl⟩
    · exact lookupA_insertA_self _ _ _
    · exact lookupA_insertA_self _ _ _
    · intro s hs
      exact ⟨lookupA_insertA_ne _ _ hs, lookupA_insertA_ne _ _ hs⟩
  | some sess =>
    refine ⟨rfl, ?_, ?_, ?_, rfl, rfl, rfl, rfl⟩
    · exact lookupA_insertA_self _ _ _
    · exact lookupA_insertA_self _ _ _
    · intro s hs
      exact ⟨lookupA_insertA_ne _ _ hs, lookupA_insertA_ne _ _ hs⟩

theorem detachFromSession_spec (connId : String) (s0 : String) (td te : Nat)
    (st : ManagerState) :
    (detachFromSession connId ⟨some s0, some td, some te⟩ st).1 = ConnState.fresh ∧
    (∀ l, lookupA s0 st.dataListeners = some l →
      lookupA s0 (detachFromSession connId ⟨some s0, some td, some te⟩ st).2.dataListeners =
        some (l.filter (fun p => p.1 ≠ td))) ∧
    (∀ l, lookupA s0 st.exitListeners = some l →
      lookupA s0 (detachFromSession connId ⟨some s0, some td, some te⟩ st).2.exitListeners =
        some (l.filter (fun p => p.1 ≠ te))) ∧
    td ∉ ((lookupA s0
      (detachFromSession connId ⟨some s0, some td, some te⟩ st).2.dataListeners).getD []).map
        Prod.fst ∧
    te ∉ ((lookupA s0
      (detachFromSession connId ⟨some s0, some td, some te⟩ st).2.exitListeners).getD []).map
        Prod.fst ∧
    (∀ s, s ≠ s0 →
      lookupA s (detachFromSession connId ⟨some s0, some td, some te⟩ st).2.dataListeners =
        lookupA s st.dataListeners ∧
      lookupA s (detachFromSession connId ⟨some s0, some td, some te⟩ st).2.exitListeners =
        lookupA s st.exitListeners) ∧
    (detachFromSession connId ⟨some s0, some td, some te⟩ st).2.activeSessions =
      st.activeSessions ∧
    (detachFromSession connId ⟨some s0, some td, some te⟩ st).2.scrollbackBuffers =
      st.scrollbackBuffers ∧
    (detachFromSession connId ⟨some s0, some td, some te⟩ st).2.dbScrollback =
      st.dbScrollback ∧
    (detachFromSession connId ⟨some s0, some td, some te⟩ st).2.nextToken = st.nextToken := by
  unfold detachFromSession unsubscribe removeClient
  dsimp only
  cases hd : lookupA s0 st.dataListeners with
  | none =>
    cases he : lookupA s0 st.exitListeners with
    | none =>
      cases hm : lookupA s0 st.activeSessions <;>
        exact ⟨rfl, fun l hl => by simp at hl,
          fun l hl => by simp at hl,
          by simp [hd], by simp [he],
          fun s hs => ⟨rfl, rfl⟩, rfl, rfl, rfl, rfl⟩
    | some le =>
      cases hm : lookupA s0 st.activeSessions <;>
        exact ⟨rfl, fun l hl => by simp at hl,
          fun l hl => (by injection hl with hl; subst hl; exact lookupA_insertA_self _ _ _),
          by simp [hd], by simp [lookupA_insertA_self, not_mem_map_fst_filter_ne],
          fun s hs => ⟨rfl, lookupA_insertA_ne _ _ hs⟩, rfl, rfl, rfl, rfl⟩
  | some ld =>
    cases he : lookupA s0 st.exitListeners with
    | none =>
      cases hm : lookupA s0 st.activeSessions <;>
        exact ⟨rfl, fun l hl => (by injection hl with hl; subst hl; exact lookupA_insertA_self _ _ _),
          fun l hl => by simp at hl,
          by simp [lookupA_insertA_self, not_mem_map_fst_filter_ne],
          by simp [he],
          fun s hs => ⟨lookupA_insertA_ne _ _ hs, rfl⟩, rfl, rfl, rfl, rfl⟩
    | some le =>
      cases hm : lookupA s0 st.activeSessions <;>
        exact ⟨rfl, fun l hl => (by injection hl with hl; subst hl; exact lookupA_insertA_self _ _ _),
          fun l hl => (by injection hl with hl; subst hl; exact lookupA_insertA_self _ _ _),
          by simp [lookupA_insertA_self, not_mem_map_fst_filter_ne],
          by simp [lookupA_insertA_self, not_mem_map_fst_filter_ne],
          fun s hs => ⟨lookupA_insertA_ne _ _ hs, lookupA_insertA_ne _ _ hs⟩,
          rfl, rfl, rfl, rfl⟩

theorem attach_after_detach_spec (connId s0 nid : String) (td te : Nat)
    (M : ManagerState) (hne : s0 ≠ nid)
    (hfD : lookupA nid M.dataListeners = none)
    (hfE : lookupA nid M.exitListeners = none) :
    (attachToSession connId
        (detachFromSession connId ⟨some s0, some td, some te⟩ M).1 nid
        (detachFromSession connId ⟨some s0, some td, some te⟩ M).2).1.attachedSession
      = some nid ∧
    td ∉ ((lookupA s0 (attachToSession connId
        (detachFromSession connId ⟨some s0, some td, some te⟩ M).1 nid
        (detachFromSession connId ⟨some s0, some td, some te⟩ M).2).2.dataListeners).getD
          []).map Prod.fst ∧
    te ∉ ((lookupA s0 (attachToSession connId
        (detachFromSession connId ⟨some s0, some td, some te⟩ M).1 nid
        (detachFromSession connId ⟨some s0, some td, some te⟩ M).2).2.exitListeners).getD
          []).map Prod.fst ∧
    lookupA nid (attachToSession connId
        (detachFromSession connId ⟨some s0, some td, some te⟩ M).1 nid
        (detachFromSession connId ⟨some s0, some td, some te⟩ M).2).2.dataListeners
      = some [(M.nextToken, connId)] ∧
    lookupA nid (attachToSession connId
        (detachFromSession connId ⟨some s0, some td, some te⟩ M).1 nid
        (detachFromSession connId ⟨some s0, some td, some te⟩ M).2).2.exitListeners
      = some [(M.nextToken + 1, connId)] := by
  obtain ⟨_, _, _, hD4, hD5, hD6, _, _, _, hD10⟩ := detachFromSession_spec connId s0 td te M
  obtain ⟨hA1, hA2, hA3, hA4, _, _, _, _⟩ := attachToSession_spec connId
    (detachFromSession connId ⟨some s0, some td, some te⟩ M).1 nid
    (detachFromSession connId ⟨some s0, some td, some te⟩ M).2
  obtain ⟨hDd, hDe⟩ := hD6 nid (Ne.symm hne)
  refine ⟨by rw [hA1], ?_, ?_, ?_, ?_⟩
  · rw [(hA4 s0 hne).1]
    exact hD4
  · rw [(hA4 s0 hne).2]
    exact hD5
  · rw [hA2, hDd, hfD, hD10]
    rfl
  · rw [hA3, hDe, hfE, hD10]
    rfl

/-- C5 (amended): after a successful `session.create`, the server's reply to
that request is a single `session.created` frame carrying the request's
correlation id; any previously attached session is detached (its data and
exit subscriptions are released) before the connection is auto-attached to
the new session. No `session.attached` frame is emitted by the create
handling itself. -/
theorem sessionCreate_success_reply_and_reattach
    (cfg : Config) (env : CreateEnv) (connId : String) (msgId : Option String)
    (conn : ConnState) (st : ManagerState) (s0 : String) (td te : Nat)
    (hquota : countActiveSessions st.db < cfg.maxSessions)
    (hins : env.insertErr = none)
    (hatt : conn.attachedSession = some s0)
    (hd : conn.dataUnsub = some td)
    (he : conn.exitUnsub = some te)
    (hne : s0 ≠ env.newId)
    (hfreshD : lookupA env.newId st.dataListeners = none)
    (hfreshE : lookupA env.newId st.exitListeners = none) :
    (handleSessionCreate cfg env connId msgId none conn st).frames.map Frame.type
        = ["session.created"] ∧
    (∀ f ∈ (handleSessionCreate cfg env connId msgId none conn st).frames, f.id = msgId) ∧
    (handleSessionCreate cfg env connId msgId none conn st).conn.attachedSession
        = some env.newId ∧
    td ∉ ((lookupA s0
        (handleSessionCreate cfg env connId msgId none conn st).mgr.dataListeners).getD
          []).map Prod.fst ∧
    te ∉ ((lookupA s0
        (handleSessionCreate cfg env connId msgId none conn st).mgr.exitListeners).getD
          []).map Prod.fst ∧
    lookupA env.newId
        (handleSessionCreate cfg env connId msgId none conn st).mgr.dataListeners
      = some [(st.nextToken, connId)] ∧
    lookupA env.newId
        (handleSessionCreate cfg env connId msgId none conn st).mgr.exitListeners
      = some [(st.nextToken + 1, connId)] := by
  have hq : ¬ countActiveSessions st.db ≥ cfg.maxSessions := by omega
  obtain ⟨a, d, x⟩ := conn
  dsimp only at hatt hd he
  subst hatt
  subst hd
  subst he
  obtain ⟨nid, iw, ta, tok, ierr⟩ := env
  dsimp only at hins hne hfreshD hfreshE ⊢
  subst hins
  unfold handleSessionCreate
  rw [show validateSessionOptions none = Except.ok {} from rfl]
  unfold createSession
  dsimp only
  rw [if_neg hq]
  dsimp only [Option.isSome_some]
  rw [if_pos rfl]
  refine ⟨rfl, by simp, ?_, ?_, ?_, ?_, ?_⟩
  · exact (attach_after_detach_spec connId s0 nid td te _ hne (by exact hfreshD)
      (by exact hfreshE)).1
  · exact (attach_after_detach_spec connId s0 nid td te _ hne (by exact hfreshD)
      (by exact hfreshE)).2.1
  · exact (attach_after_detach_spec connId s0 nid td te _ hne (by exact hfreshD)
      (by exact hfreshE)).2.2.1
  · exact (attach_after_detach_spec connId s0 nid td te _ hne (by exact hfreshD)
      (by exact hfreshE)).2.2.2.1
  · exact (attach_after_detach_spec connId s0 nid td te _ hne (by exact hfreshD)
      (by exact hfreshE)).2.2.2.2

theorem sessionCreate_success_reply_and_reattach_witness :
    countActiveSessions ManagerState.empty.db < (Config.mk 10 100).maxSessions ∧
    (CreateEnv.mk "u1" true false false none).insertErr = none ∧
    (ConnState.mk (some "s0") (some 7) (some 8)).attachedSession = some "s0" ∧
    (ConnState.mk (some "s0") (some 7) (some 8)).dataUnsub = some 7 ∧
    (ConnState.mk (some "s0") (some 7) (some 8)).exitUnsub = some 8 ∧
    "s0" ≠ (CreateEnv.mk "u1" true false false none).newId ∧
    lookupA "u1" ManagerState.empty.dataListeners = none ∧
    lookupA "u1" ManagerState.empty.exitListeners = none ∧
    (handleSessionCreate (Config.mk 10 100) (CreateEnv.mk "u1" true false false none)
        "conn1" (some "1") none (ConnState.mk (some "s0") (some 7) (some 8))
        ManagerState.empty).frames.map Frame.type = ["session.created"] :=
  ⟨by decide, rfl, rfl, rfl, rfl, by decide, rfl, rfl,
    (sessionCreate_success_reply_and_reattach (Config.mk 10 100)
        (CreateEnv.mk "u1" true false false none) "conn1" (some "1")
        (ConnState.mk (some "s0") (some 7) (some 8)) ManagerState.empty "s0" 7 8
        (by decide) rfl rfl rfl rfl (by decide) rfl rfl).1⟩

/-- C5 counterexample: on a concrete successful `session.create` (request id
`"1"`, fresh connection, empty manager) the server emits only the
`session.created` reply — no `session.attached` frame is emitted on that
connection, contradicting the claim that one follows the reply. -/
theorem sessionCreate_no_attached_frame_counterexample :
    (handleSessionCreate (Config.mk 10 100) (CreateEnv.mk "u1" true false false none)
        "conn1" (some "1") none ConnState.fresh ManagerState.empty).frames.map Frame.type
      = ["session.created"] ∧
    ((handleSessionCreate (Config.mk 10 100) (CreateEnv.mk "u1" true false false none)
        "conn1" (some "1") none ConnState.fresh ManagerState.empty).frames.all
          (fun f => f.type ≠ "session.attached")) = true :=
  ⟨rfl, rfl⟩

theorem handleSessionAttach_fresh_eq (connId : String) (m : Option String) (s : String)
    (st : ManagerState) (sess : Session) (hne : s ≠ "")
    (hsess : lookupA s st.activeSessions = some sess) :
    handleSessionAttach connId m (some s) ConnState.fresh st =
      { conn := (attachToSession connId ConnState.fresh s st).1
        mgr := (attachToSession connId ConnState.fresh s st).2
        frames := [{ type := "session.attached", id := m
                     payload := .attached s (String.intercalate "\n"
                       (getScrollback (attachToSession connId ConnState.fresh s st).2 s)) }]
        effects := [] } := by
  unfold handleSessionAttach
  dsimp only
  rw [if_neg hne, hsess]
  rfl

theorem handleSessionAttach_attached_eq (connId : String) (m : Option String)
    (s s0 : String) (td te : Nat) (st : ManagerState) (sess : Session) (hne : s ≠ "")
    (hsess : lookupA s st.activeSessions = some sess) :
    handleSessionAttach connId m (some s) ⟨some s0, some td, some te⟩ st =
      { conn := (attachToSession connId
          (detachFromSession connId ⟨some s0, some td, some te⟩ st).1 s
          (detachFromSession connId ⟨some s0, some td, some te⟩ st).2).1
        mgr := (attachToSession connId
          (detachFromSession connId ⟨some s0, some td, some te⟩ st).1 s
          (detachFromSession connId ⟨some s0, some td, some te⟩ st).2).2
        frames := [{ type := "session.attached", id := m
                     payload := .attached s (String.intercalate "\n"
                       (getScrollback (attachToSession connId
                         (detachFromSession connId ⟨some s0, some td, some te⟩ st).1 s
                         (detachFromSession connId ⟨some s0, some td, some te⟩ st).2).2 s)) }]
        effects := [] } := by
  unfold handleSessionAttach
  dsimp only
  rw [if_neg hne, hsess]
  rfl

/-- C9: on a connection attached to session `s` (after a first
`session.attach`), a second `session.attach` for `s` does not duplicate
subscriptions: afterwards `s` carries exactly one data listener and one exit
listener for that connection, and the connection holds exactly those two
tokens. -/
theorem attach_twice_single_subscription
    (connId : String) (m1 m2 : Option String) (s : String) (sess : Session)
    (st : ManagerState)
    (hsess : lookupA s st.activeSessions = some sess)
    (hne : s ≠ "")
    (hfD : lookupA s st.dataListeners = none)
    (hfE : lookupA s st.exitListeners = none) :
    lookupA s (handleSessionAttach connId m2 (some s)
        (handleSessionAttach connId m1 (some s) ConnState.fresh st).conn
        (handleSessionAttach connId m1 (some s) ConnState.fresh st).mgr).mgr.dataListeners
      = some [(st.nextToken + 2, connId)] ∧
    lookupA s (handleSessionAttach connId m2 (some s)
        (handleSessionAttach connId m1 (some s) ConnState.fresh st).conn
        (handleSessionAttach connId m1 (some s) ConnState.fresh st).mgr).mgr.exitListeners
      = some [(st.nextToken + 3, connId)] ∧
    (handleSessionAttach connId m2 (some s)
        (handleSessionAttach connId m1 (some s) ConnState.fresh st).conn
        (handleSessionAttach connId m1 (some s) ConnState.fresh st).mgr).conn
      = { attachedSession := some s, dataUnsub := some (st.nextToken + 2)
          exitUnsub := some (st.nextToken + 3) } := by
  obtain ⟨hA1, hA2, hA3, hA4, hA5, hA6, hA7, hA8⟩ :=
    attachToSession_spec connId ConnState.fresh s st
  rw [handleSessionAttach_fresh_eq connId m1 s st sess hne hsess]
  dsimp only
  rw [hA1]
  have hsess2 : lookupA s (attachToSession connId ConnState.fresh s st).2.activeSessions
      = some sess := by rw [hA5, hsess]
  rw [handleSessionAttach_attached_eq connId m2 s s st.nextToken (st.nextToken + 1) _
    sess hne hsess2]
  dsimp only
  obtain ⟨_, hD2, hD3, _, _, _, _, _, _, hD10⟩ :=
    detachFromSession_spec connId s st.nextToken (st.nextToken + 1)
      (attachToSession connId ConnState.fresh s st).2
  have hA2' : lookupA s (attachToSession connId ConnState.fresh s st).2.dataListeners
      = some [(st.nextToken, connId)] := by rw [hA2, hfD]; rfl
  have hA3' : lookupA s (attachToSession connId ConnState.fresh s st).2.exitListeners
      = some [(st.nextToken + 1, connId)] := by rw [hA3, hfE]; rfl
  have hdl : lookupA s (detachFromSession connId
      ⟨some s, some st.nextToken, some (st.nextToken + 1)⟩
      (attachToSession connId ConnState.fresh s st).2).2.dataListeners = some [] := by
    rw [hD2 _ hA2']
    simp
  have hel : lookupA s (detachFromSession connId
      ⟨some s, some st.nextToken, some (st.nextToken + 1)⟩
      (attachToSession connId ConnState.fresh s st).2).2.exitListeners = some [] := by
    rw [hD3 _ hA3']
    simp
  obtain ⟨hB1, hB2, hB3, _, _, _, _, _⟩ := attachToSession_spec connId
    (detachFromSession connId ⟨some s, some st.nextToken, some (st.nextToken + 1)⟩
      (attachToSession connId ConnState.fresh s st).2).1 s
    (detachFromSession connId ⟨some s, some st.nextToken, some (st.nextToken + 1)⟩
      (attachToSession connId ConnState.fresh s st).2).2
  refine ⟨?_, ?_, ?_⟩
  · rw [hB2, hdl, hD10, hA8]
    rfl
  · rw [hB3, hel, hD10, hA8]
    rfl
  · rw [hB1, hD10, hA8]

theorem attach_twice_single_subscription_witness :
    lookupA "s" ({ ManagerState.empty with
        activeSessions := [("s", Session.mk "s" "n" "/bin/bash" "/" "active" 80 24 none)] }
          : ManagerState).activeSessions
      = some (Session.mk "s" "n" "/bin/bash" "/" "active" 80 24 none) ∧
    "s" ≠ "" ∧
    lookupA "s" ({ ManagerState.empty with
        activeSessions := [("s", Session.mk "s" "n" "/bin/bash" "/" "active" 80 24 none)] }
          : ManagerState).dataListeners = none ∧
    lookupA "s" ({ ManagerState.empty with
        activeSessions := [("s", Session.mk "s" "n" "/bin/bash" "/" "active" 80 24 none)] }
          : ManagerState).exitListeners = none ∧
    lookupA "s" (handleSessionAttach "c" (some "2") (some "s")
        (handleSessionAttach "c" (some "1") (some "s") ConnState.fresh
          { ManagerState.empty with
            activeSessions := [("s", Session.mk "s" "n" "/bin/bash" "/" "active" 80 24 none)] }).conn
        (handleSessionAttach "c" (some "1") (some "s") ConnState.fresh
          { ManagerState.empty with
            activeSessions := [("s", Session.mk "s" "n" "/bin/bash" "/" "active" 80 24 none)] }).mgr).mgr.dataListeners
      = some [(2, "c")] :=
  ⟨rfl, by decide, rfl, rfl,
    (attach_twice_single_subscription "c" (some "1") (some "2") "s"
        (Session.mk "s" "n" "/bin/bash" "/" "active" 80 24 none)
        { ManagerState.empty with
          activeSessions := [("s", Session.mk "s" "n" "/bin/bash" "/" "active" 80 24 none)] }
        rfl (by decide) rfl rfl).1⟩

/-- C6: with capacity 3 and a 10-second refill interval, an unknown client
performing four try-acquire calls within 100 ms gets `true` three times and
`false` on the fourth, and the gated message handler answers the rejected
message with a single `error` frame `Rate limit exceeded`. -/
theorem rate_limiter_burst_of_four
    (cid : String) (t0 t1 t2 t3 : Nat)
    (h01 : t0 ≤ t1) (h12 : t1 ≤ t2) (h23 : t2 ≤ t3) (hwin : t3 ≤ t0 + 100) :
    ((RateLimiter.init 3 10000).tryAcquire cid t0).1 = true ∧
    (((RateLimiter.init 3 10000).tryAcquire cid t0).2.tryAcquire cid t1).1 = true ∧
    ((((RateLimiter.init 3 10000).tryAcquire cid t0).2.tryAcquire cid t1).2.tryAcquire
        cid t2).1 = true ∧
    (rateLimitGate (((((RateLimiter.init 3 10000).tryAcquire cid t0).2.tryAcquire
        cid t1).2.tryAcquire cid t2).2) cid t3).1 = false ∧
    (rateLimitGate (((((RateLimiter.init 3 10000).tryAcquire cid t0).2.tryAcquire
        cid t1).2.tryAcquire cid t2).2) cid t3).2.2 =
      [{ type := "error", id := none, payload := .errMsg "Rate limit exceeded" }] := by
  have hd1 : (t1 - t0) / 10000 = 0 := Nat.div_eq_of_lt (by omega)
  have hd2 : (t2 - t0) / 10000 = 0 := Nat.div_eq_of_lt (by omega)
  have hd3 : (t3 - t0) / 10000 = 0 := Nat.div_eq_of_lt (by omega)
  have e1 : (RateLimiter.init 3 10000).tryAcquire cid t0 =
      (true, RateLimiter.mk [(cid, 2)] [(cid, t0)] 3 10000) := by
    simp [RateLimiter.tryAcquire, RateLimiter.init, lookupA, insertA]
  have e2 : (RateLimiter.mk [(cid, 2)] [(cid, t0)] 3 10000).tryAcquire cid t1 =
      (true, RateLimiter.mk [(cid, 1)] [(cid, t0)] 3 10000) := by
    simp [RateLimiter.tryAcquire, lookupA, insertA, hd1]
  have e3 : (RateLimiter.mk [(cid, 1)] [(cid, t0)] 3 10000).tryAcquire cid t2 =
      (true, RateLimiter.mk [(cid, 0)] [(cid, t0)] 3 10000) := by
    simp [RateLimiter.tryAcquire, lookupA, insertA, hd2]
  have e4 : (RateLimiter.mk [(cid, 0)] [(cid, t0)] 3 10000).tryAcquire cid t3 =
      (false, RateLimiter.mk [(cid, 0)] [(cid, t0)] 3 10000) := by
    simp [RateLimiter.tryAcquire, lookupA, insertA, hd3]
  rw [e1]
  rw [e2]
  rw [e3]
  unfold rateLimitGate
  rw [e4]
  exact ⟨rfl, rfl, rfl, rfl, rfl⟩

theorem rate_limiter_burst_of_four_witness :
    (0 : Nat) ≤ 10 ∧ (10 : Nat) ≤ 20 ∧ (20 : Nat) ≤ 30 ∧ (30 : Nat) ≤ 0 + 100 ∧
    ((RateLimiter.init 3 10000).tryAcquire "c" 0).1 = true ∧
    (rateLimitGate (((((RateLimiter.init 3 10000).tryAcquire "c" 0).2.tryAcquire
        "c" 10).2.tryAcquire "c" 20).2) "c" 30).1 = false :=
  ⟨by decide, by decide, by decide, by decide,
    (rate_limiter_burst_of_four "c" 0 10 20 30 (by decide) (by decide) (by decide)
      (by decide)).1,
    (rate_limiter_burst_of_four "c" 0 10 20 30 (by decide) (by decide) (by decide)
      (by decide)).2.2.2.1⟩

/-- C7 counterexample: a live session on a non-Windows host where the
external multiplexer is unavailable (no tmux handle), with non-empty
scrollback; `terminateSession` succeeds but its effect trace contains no
scrollback-persist write and the stored-blob table stays empty — the code
persists only on Windows, not whenever the multiplexer is unavailable. -/
theorem terminate_no_persist_off_windows_counterexample :
    (terminateSession false
        { ManagerState.empty with
          activeSessions := [("s1", Session.mk "s1" "n" "/bin/bash" "/" "active" 80 24 none)]
          scrollbackBuffers := [("s1", (ScrollbackBuffer.init 100).push "hello\n")]
          db := [SessionRow.mk "s1" "active"] } "s1").1 = true ∧
    ((ScrollbackBuffer.init 100).push "hello\n").getAll = ["hello"] ∧
    ((terminateSession false
        { ManagerState.empty with
          activeSessions := [("s1", Session.mk "s1" "n" "/bin/bash" "/" "active" 80 24 none)]
          scrollbackBuffers := [("s1", (ScrollbackBuffer.init 100).push "hello\n")]
          db := [SessionRow.mk "s1" "active"] } "s1").2.2.all
            (fun e => !e.isPersist)) = true ∧
    (terminateSession false
        { ManagerState.empty with
          activeSessions := [("s1", Session.mk "s1" "n" "/bin/bash" "/" "active" 80 24 none)]
          scrollbackBuffers := [("s1", (ScrollbackBuffer.init 100).push "hello\n")]
          db := [SessionRow.mk "s1" "active"] } "s1").2.1.dbScrollback = [] :=
  ⟨rfl, rfl, rfl, rfl⟩

/-- C7 (amended): for every live session terminated on a Windows host (where
the fallback persistence strategy applies) whose scrollback is non-empty,
`terminateSession` writes the LF-joined scrollback blob to the Metadata
Store; on non-Windows hosts no blob is written even when the multiplexer is
unavailable. -/
theorem terminate_persists_scrollback_on_windows
    (st : ManagerState) (id : String) (sess : Session) (buf : ScrollbackBuffer)
    (hlive : lookupA id st.activeSessions = some sess)
    (hbuf : lookupA id st.scrollbackBuffers = some buf)
    (hne : buf.getAll ≠ []) :
    Effect.persistScrollbackEff id (String.intercalate "\n" buf.getAll)
      ∈ (terminateSession true st id).2.2 ∧
    lookupA id (terminateSession true st id).2.1.dbScrollback =
      some (String.intercalate "\n" buf.getAll) := by
  have hpos : buf.getAll.length > 0 := List.length_pos.mpr hne
  unfold terminateSession
  rw [hlive]
  dsimp only
  have hsb : ((lookupA id st.scrollbackBuffers).map ScrollbackBuffer.getAll).getD [] =
      buf.getAll := by rw [hbuf]; rfl
  rw [hsb]
  rw [if_pos ⟨rfl, hpos⟩]
  rw [if_pos ⟨rfl, hpos⟩]
  constructor
  · simp
  · exact lookupA_insertA_self _ _ _

theorem terminate_persists_scrollback_on_windows_witness :
    lookupA "s1" ({ ManagerState.empty with
        activeSessions := [("s1", Session.mk "s1" "n" "/bin/bash" "/" "active" 80 24 none)]
        scrollbackBuffers := [("s1", (ScrollbackBuffer.init 100).push "hello\n")]
        db := [SessionRow.mk "s1" "active"] } : ManagerState).activeSessions
      = some (Session.mk "s1" "n" "/bin/bash" "/" "active" 80 24 none) ∧
    lookupA "s1" ({ ManagerState.empty with
        activeSessions := [("s1", Session.mk "s1" "n" "/bin/bash" "/" "active" 80 24 none)]
        scrollbackBuffers := [("s1", (ScrollbackBuffer.init 100).push "hello\n")]
        db := [SessionRow.mk "s1" "active"] } : ManagerState).scrollbackBuffers
      = some ((ScrollbackBuffer.init 100).push "hello\n") ∧
    ((ScrollbackBuffer.init 100).push "hello\n").getAll ≠ [] ∧
    Effect.persistScrollbackEff "s1"
        (String.intercalate "\n" ((ScrollbackBuffer.init 100).push "hello\n").getAll)
      ∈ (terminateSession true
        { ManagerState.empty with
          activeSessions := [("s1", Session.mk "s1" "n" "/bin/bash" "/" "active" 80 24 none)]
          scrollbackBuffers := [("s1", (ScrollbackBuffer.init 100).push "hello\n")]
          db := [SessionRow.mk "s1" "active"] } "s1").2.2 :=
  ⟨rfl, rfl, by decide,
    (terminate_persists_scrollback_on_windows
        { ManagerState.empty with
          activeSessions := [("s1", Session.mk "s1" "n" "/bin/bash" "/" "active" 80 24 none)]
          scrollbackBuffers := [("s1", (ScrollbackBuffer.init 100).push "hello\n")]
          db := [SessionRow.mk "s1" "active"] } "s1"
        (Session.mk "s1" "n" "/bin/bash" "/" "active" 80 24 none)
        ((ScrollbackBuffer.init 100).push "hello\n") rfl rfl (by decide)).1⟩

/-- C8 counterexample: a `terminal.resize` with `cols = 501` (and one with
`cols = 0`) on a connection attached to session `"s"` is rejected — state
and PTY untouched — but the client receives zero frames, not the claimed
one error frame correlating to the request id. -/
theorem resize_rejected_without_error_frame_counterexample :
    (handleTerminalResize "c" (some "9")
        (some (TerminalResizePayload.mk (some "s") (some 501) (some 24)))
        (ConnState.mk (some "s") (some 0) (some 1))
        { ManagerState.empty with
          activeSessions := [("s", Session.mk "s" "n" "/bin/bash" "/" "active" 80 24 none)] }).frames
      = [] ∧
    (handleTerminalResize "c" (some "9")
        (some (TerminalResizePayload.mk (some "s") (some 501) (some 24)))
        (ConnState.mk (some "s") (some 0) (some 1))
        { ManagerState.empty with
          activeSessions := [("s", Session.mk "s" "n" "/bin/bash" "/" "active" 80 24 none)] }).effects
      = [] ∧
    (handleTerminalResize "c" (some "9")
        (some (TerminalResizePayload.mk (some "s") (some 501) (some 24)))
        (ConnState.mk (some "s") (some 0) (some 1))
        { ManagerState.empty with
          activeSessions := [("s", Session.mk "s" "n" "/bin/bash" "/" "active" 80 24 none)] }).mgr
      = { ManagerState.empty with
          activeSessions := [("s", Session.mk "s" "n" "/bin/bash" "/" "active" 80 24 none)] } ∧
    (handleTerminalResize "c" (some "9")
        (some (TerminalResizePayload.mk (some "s") (some 0) (some 24)))
        (ConnState.mk (some "s") (some 0) (some 1))
        { ManagerState.empty with
          activeSessions := [("s", Session.mk "s" "n" "/bin/bash" "/" "active" 80 24 none)] }).frames
      = [] :=
  ⟨by decide, by decide, by decide, by decide⟩

/-- C8 (amended): a `terminal.resize` request whose `cols` (or `rows`) lies
outside `[1, 500]` is rejected with no observable effect at all: the
session's in-memory and durable dimensions are unchanged and the PTY is not
resized, but no error frame is sent — the request is silently dropped,
contrary to the one-error-frame rule. -/
theorem resize_out_of_range_silent
    (connId : String) (msgId : Option String) (p : TerminalResizePayload)
    (conn : ConnState) (st : ManagerState) (c : Int)
    (hc : p.cols = some c) (hrange : c < 1 ∨ c > 500) :
    handleTerminalResize connId msgId (some p) conn st =
      { conn := conn, mgr := st, frames := [], effects := [] } := by
  unfold handleTerminalResize
  dsimp only [Option.getD_some]
  by_cases h0 : truthyStr p.sessionId ∧ truthyInt p.cols ∧ truthyInt p.rows
  · rw [if_neg (not_not_intro h0)]
    have hcols : p.cols.getD 0 = c := by rw [hc]; rfl
    rw [hcols]
    rcases hrange with h | h
    · rw [if_pos (Or.inl h)]
    · rw [if_pos (Or.inr (Or.inl h))]
  · rw [if_pos h0]

theorem resize_out_of_range_silent_witness :
    (TerminalResizePayload.mk (some "s") (some 501) (some 24)).cols = some 501 ∧
    ((501 : Int) < 1 ∨ (501 : Int) > 500) ∧
    handleTerminalResize "c" (some "9")
        (some (TerminalResizePayload.mk (some "s") (some 501) (some 24)))
        (ConnState.mk (some "s") (some 0) (some 1))
        { ManagerState.empty with
          activeSessions := [("s", Session.mk "s" "n" "/bin/bash" "/" "active" 80 24 none)] } =
      { conn := ConnState.mk (some "s") (some 0) (some 1)
        mgr := { ManagerState.empty with
          activeSessions := [("s", Session.mk "s" "n" "/bin/bash" "/" "active" 80 24 none)] }
        frames := [], effects := [] } :=
  ⟨rfl, by decide,
    resize_out_of_range_silent "c" (some "9")
      (TerminalResizePayload.mk (some "s") (some 501) (some 24))
      (ConnState.mk (some "s") (some 0) (some 1))
      { ManagerState.empty with
        activeSessions := [("s", Session.mk "s" "n" "/bin/bash" "/" "active" 80 24 none)] }
      501 rfl (by decide)⟩

theorem any_id_map_status (db : List SessionRow) (sid : String) :
    (db.map (fun r => if r.id = sid then { r with status := "terminated" } else r)).any
      (fun r => r.id = sid) = db.any (fun r => r.id = sid) := by
  induction db with
  | nil => rfl
  | cons r rest ih =>
    by_cases h : r.id = sid
    · simp [h, ih]
    · simp [h, ih]

/-- C10 counterexample: for the completely unknown id `"ghost"` (no live
session, no durable record), the `deleted` event-log insert violates the
`session_logs` foreign key: `deleteSession` throws instead of returning
`true`, no `deleted` event-log entry is appended, and the `session.delete`
request is answered with no frame at all — not a `session.deleted` success
frame. -/
theorem deleteSession_unknown_id_counterexample :
    (deleteSession false ManagerState.empty "ghost").1 =
      .error "FOREIGN KEY constraint failed" ∧
    (handleSessionDelete false "c" (some "k") (some "ghost") ConnState.fresh
        ManagerState.empty).frames = [] ∧
    (handleSessionDelete false "c" (some "k") (some "ghost") ConnState.fresh
        ManagerState.empty).effects = [] :=
  ⟨rfl, rfl, rfl⟩

/-- C10 (amended): `deleteSession(id)` returns `true` for every id that has
a durable session row — live, idle or terminated — and such a
`session.delete` request is answered with a `session.deleted` success frame
carrying the request's correlation id (plus the broadcast copy), with a
`deleted` event-log entry appended; for an id with no durable record the
event-log insert violates the `session_logs` foreign key, `deleteSession`
throws, and no success frame is sent. -/
theorem deleteSession_known_id_succeeds
    (isWin : Bool) (st : ManagerState) (connId : String) (msgId : Option String)
    (conn : ConnState) (sid : String) (hne : sid ≠ "")
    (hrow : st.db.any (fun r => r.id = sid) = true) :
    (deleteSession isWin st sid).1 = .ok true ∧
    (handleSessionDelete isWin connId msgId (some sid) conn st).frames =
      [{ type := "session.deleted", id := msgId, payload := .sessionId sid },
       { type := "session.deleted", id := none, payload := .sessionId sid }] ∧
    Effect.logEvent sid "deleted" ∈
      (handleSessionDelete isWin connId msgId (some sid) conn st).effects := by
  obtain ⟨st2, effs0, hdel⟩ : ∃ st2 effs0, deleteSession isWin st sid =
      (.ok true, st2, effs0 ++ [Effect.logEvent sid "deleted", Effect.dbDelete sid]) := by
    unfold deleteSession
    dsimp only
    by_cases hlive : (lookupA sid st.activeSessions).isSome
    · obtain ⟨sess, hsess⟩ := Option.isSome_iff_exists.mp hlive
      have hdb : (terminateSession isWin st sid).2.1.db =
          st.db.map (fun r => if r.id = sid then { r with status := "terminated" } else r) := by
        unfold terminateSession
        rw [hsess]
      have hlog : logInsertOk (terminateSession isWin st sid).2.1.db sid = true := by
        unfold logInsertOk
        rw [hdb, any_id_map_status]
        exact hrow
      rw [if_pos hlive]
      dsimp only
      rw [if_pos hlog]
      exact ⟨_, _, rfl⟩
    · rw [if_neg hlive]
      dsimp only
      rw [if_pos (show logInsertOk st.db sid = true from hrow)]
      exact ⟨_, _, rfl⟩
  refine ⟨by rw [hdel], ?_, ?_⟩
  · unfold handleSessionDelete
    dsimp only
    rw [if_neg hne, hdel]
    rfl
  · unfold handleSessionDelete
    dsimp only
    rw [if_neg hne, hdel]
    simp

theorem deleteSession_known_id_succeeds_witness :
    ("s1" : String) ≠ "" ∧
    ({ ManagerState.empty with db := [SessionRow.mk "s1" "terminated"] }
        : ManagerState).db.any (fun r => r.id = "s1") = true ∧
    (deleteSession false
        { ManagerState.empty with db := [SessionRow.mk "s1" "terminated"] } "s1").1
      = .ok true ∧
    (handleSessionDelete false "c" (some "k") (some "s1") ConnState.fresh
        { ManagerState.empty with db := [SessionRow.mk "s1" "terminated"] }).frames =
      [{ type := "session.deleted", id := some "k", payload := .sessionId "s1" },
       { type := "session.deleted", id := none, payload := .sessionId "s1" }] ∧
    Effect.logEvent "s1" "deleted" ∈
      (handleSessionDelete false "c" (some "k") (some "s1") ConnState.fresh
        { ManagerState.empty with db := [SessionRow.mk "s1" "terminated"] }).effects :=
  ⟨by decide, by decide,
    (deleteSession_known_id_succeeds false
      { ManagerState.empty with db := [SessionRow.mk "s1" "terminated"] }
      "c" (some "k") ConnState.fresh "s1" (by decide) (by decide)).1,
    (deleteSession_known_id_succeeds false
      { ManagerState.empty with db := [SessionRow.mk "s1" "terminated"] }
      "c" (some "k") ConnState.fresh "s1" (by decide) (by decide)).2.1,
    (deleteSession_known_id_succeeds false
      { ManagerState.empty with db := [SessionRow.mk "s1" "terminated"] }
      "c" (some "k") ConnState.fresh "s1" (by decide) (by decide)).2.2⟩

end RemoteTerminal
